import Mathlib

/-!
Shallow embedding of `src/keylogger.py` (class `Keylogger`) and proofs of the
specification's claims about it.

Modelling conventions:
* A pynput key event is either a `KeyCode` (carries a `char` attribute, which
  may be Python `None`) or a member of the `Key` enum (no `char` attribute, so
  `key.char` raises `AttributeError`).  We model this as `KeyEvent` below.
* Mutable object state (`log_data`, `running`) together with the externally
  observable world (log-file contents, stderr and stdout lines) is a `KState`.
* File I/O can fail; each call that performs a write takes a `Bool` oracle
  saying whether the underlying append succeeds.  The raw append is modelled
  as an `Except`-returning function and `flush_to_file` catches the error,
  mirroring the `try/except` in the source.
* Timestamps are produced by `datetime.now()`, i.e. they are inputs from the
  environment; callbacks take them as parameters.
-/

namespace Keylogger

/-- The symbolic members of pynput's `Key` enum that the development mentions.
`shift_r`, `ctrl`, `alt`, `menu`, `cmd`, `home`, `insert` are distinct enum
members from `shift`/`ctrl_l`/... on every pynput backend. -/
inductive KeyName where
  | space
  | enter
  | tab
  | backspace
  | shift
  | shift_r
  | ctrl
  | ctrl_l
  | ctrl_r
  | alt
  | alt_l
  | alt_r
  | caps_lock
  | esc
  | up
  | down
  | left
  | right
  | delete
  | menu
  | cmd
  | home
  | insert
  deriving DecidableEq, Repr

/-- The pynput `name` attribute of a `Key` member (the Python identifier). -/
def KeyName.pyname : KeyName → String
  | .space => "space"
  | .enter => "enter"
  | .tab => "tab"
  | .backspace => "backspace"
  | .shift => "shift"
  | .shift_r => "shift_r"
  | .ctrl => "ctrl"
  | .ctrl_l => "ctrl_l"
  | .ctrl_r => "ctrl_r"
  | .alt => "alt"
  | .alt_l => "alt_l"
  | .alt_r => "alt_r"
  | .caps_lock => "caps_lock"
  | .esc => "esc"
  | .up => "up"
  | .down => "down"
  | .left => "left"
  | .right => "right"
  | .delete => "delete"
  | .menu => "menu"
  | .cmd => "cmd"
  | .home => "home"
  | .insert => "insert"

/-- A pynput key event: a `KeyCode` carrying a `char` attribute (possibly
Python `None`, modelled as `Option.none`), or a `Key` enum member (which has
no `char` attribute). -/
inductive KeyEvent where
  | keyCode (char : Option Char)
  | key (k : KeyName)
  deriving DecidableEq, Repr

/-- Python's `str.upper()` on an ASCII identifier. -/
def upperAscii (s : String) : String := String.mk (s.data.map Char.toUpper)

/-- `Keylogger.format_key` (src/keylogger.py lines 24-57).  The `try: return
key.char` succeeds exactly on `KeyCode` events and returns the `char`
attribute verbatim, which is `None` when the key produces no character;
`Key` members raise `AttributeError` and go through the `elif` chain.
The result is `Option String` because Python can return the `None` object. -/
def format_key : KeyEvent → Option String
  | .keyCode c => c.map (fun ch => String.singleton ch)
  | .key k =>
      some (if k = .space then " "
        else if k = .enter then "\n"
        else if k = .tab then "\t"
        else if k = .backspace then "[BACKSPACE]"
        else if k = .shift then "[SHIFT]"
        else if k = .ctrl_l ∨ k = .ctrl_r then "[CTRL]"
        else if k = .alt_l ∨ k = .alt_r then "[ALT]"
        else if k = .caps_lock then "[CAPS]"
        else if k = .esc then "[ESC]"
        else if k = .up then "[UP]"
        else if k = .down then "[DOWN]"
        else if k = .left then "[LEFT]"
        else if k = .right then "[RIGHT]"
        else if k = .delete then "[DELETE]"
        else "[" ++ upperAscii k.pyname ++ "]")

/-- How a Python f-string renders the value returned by `format_key`:
a string is interpolated verbatim, the `None` object renders as `"None"`. -/
def pyStr : Option String → String
  | some s => s
  | none => "None"

/-- The log entry built in `on_press`: `f"[{timestamp}] {formatted_key}\n"`. -/
def mkEntry (timestamp : String) (formatted : Option String) : String :=
  "[" ++ timestamp ++ "] " ++ pyStr formatted ++ "\n"

/-- The mutable state of one `Keylogger` object plus the observable world:
the contents of the log file at `self.log_file`, and the lines printed to
stderr and stdout. -/
structure KState where
  log_data : String
  running : Bool
  file : String
  errLines : List String
  outLines : List String
  deriving DecidableEq, Repr

/-- State right after `__init__` with a fresh (empty) log file. -/
def initState : KState :=
  { log_data := "", running := false, file := "", errLines := [], outLines := [] }

/-- The raw filesystem append performed inside the `with open(...)` block:
it either extends the file or fails with an `OSError`-like message. -/
def fsAppend (ok : Bool) (contents data : String) : Except String String :=
  if ok then .ok (contents ++ data) else .error "io"

/-- `Keylogger.flush_to_file` (lines 73-79).  On success the whole buffer is
appended and then the buffer is cleared; on failure the exception is caught,
one diagnostic line is printed to stderr, and the buffer is left untouched.
The return type is a plain `KState`: no exception escapes. -/
def flush_to_file (ok : Bool) (s : KState) : KState :=
  match fsAppend ok s.file s.log_data with
  | .ok f => { s with file := f, log_data := "" }
  | .error e =>
      { s with errLines := s.errLines ++ ["Error writing to log file: " ++ e] }

/-- `Keylogger.on_press` (lines 59-67): compute timestamp and formatted key,
then under the lock append the entry to the buffer and flush. -/
def on_press (timestamp : String) (k : KeyEvent) (ok : Bool) (s : KState) : KState :=
  let formatted := format_key k
  let entry := mkEntry timestamp formatted
  flush_to_file ok { s with log_data := s.log_data ++ entry }

/-- `Keylogger.on_release` (lines 69-71): returns Python `False` on Escape,
otherwise falls off the end of the function, returning `None`. -/
def on_release (k : KeyEvent) : Option Bool :=
  if k = .key .esc then some false else none

/-- pynput stops the listener exactly when a callback returns `False`;
returning `None` (or anything else) lets it continue. -/
def listenerContinues (r : Option Bool) : Bool :=
  r ≠ some false

/-- `Keylogger.stop` (lines 101-105): clear the running flag, flush once if
the buffer is nonempty (Python string truthiness), print the stop banner. -/
def stop (ok : Bool) (bannerTs : String) (s : KState) : KState :=
  let s1 : KState := { s with running := false }
  let s2 : KState := if s1.log_data ≠ "" then flush_to_file ok s1 else s1
  { s2 with outLines := s2.outLines ++ ["[*] Keylogger stopped at " ++ bannerTs] }

/-- The state-changing prefix of `Keylogger.start` (lines 81-90), up to the
point where the listener loop is entered: set `running` and print the three
banner lines.  The `Except` result models Python exception raising on this
path; the source performs no state check whatsoever, so the body never
raises and the result is always `.ok`. -/
inductive SessionError where
  | alreadyRunning
  deriving DecidableEq, Repr

def start_begin (ts absPath : String) (s : KState) : Except SessionError KState :=
  .ok { s with running := true,
               outLines := s.outLines ++
                 ["[*] Keylogger started at " ++ ts,
                  "[*] Logging to: " ++ absPath,
                  "[*] Press ESC to stop...\n"] }

/-- Run a sequence of key-press events, each with its timestamp, through
`on_press` with every flush succeeding. -/
def run_press (evs : List (String × KeyEvent)) (s : KState) : KState :=
  evs.foldl (fun st e => on_press e.1 e.2 true st) s

/-- Run a sequence of key-press events where each event additionally carries
the outcome of its flush. -/
def run_faulty (evs : List (String × KeyEvent × Bool)) (s : KState) : KState :=
  evs.foldl (fun st e => on_press e.1 e.2.1 e.2.2 st) s

/-- The log entry a press event produces. -/
def entryOf (ts : String) (k : KeyEvent) : String := mkEntry ts (format_key k)

/-- Concatenation of a list of log entries, in order. -/
def strJoin : List String → String
  | [] => ""
  | s :: rest => s ++ strJoin rest

/-! ### Lock-discipline traces

`on_press` and `stop` are abstracted to the sequence of atomic actions they
perform on the shared buffer `self.log_data` and the lock `self.lock`:
`acquire`/`release` for `with self.lock:`, `readBuf`/`writeBuf` for reads and
writes of `self.log_data`, `callFlush` for an invocation of
`flush_to_file` (whose body then reads the buffer and clears it). -/

inductive BufAction where
  | acquire
  | release
  | readBuf
  | writeBuf
  | callFlush
  deriving DecidableEq, Repr

/-- Trace of `on_press`: everything between `with self.lock:` and the end of
the block; `self.log_data += entry` reads and writes the buffer, then
`flush_to_file` is called and its body reads the buffer (to write the file)
and writes it (to clear it). -/
def on_press_trace : List BufAction :=
  [.acquire, .readBuf, .writeBuf, .callFlush, .readBuf, .writeBuf, .release]

/-- Trace of `stop` in the case `self.log_data` is nonempty: the truthiness
test reads the buffer, then `flush_to_file` is called (reading and clearing
the buffer) - with no lock acquisition anywhere in `stop`. -/
def stop_trace_nonempty : List BufAction :=
  [.readBuf, .callFlush, .readBuf, .writeBuf]

/-- Check, carrying the current lock depth, that every buffer access and
every flush invocation in the trace happens while the lock is held. -/
def lockedOk : Nat → List BufAction → Bool
  | _, [] => true
  | d, .acquire :: rest => lockedOk (d + 1) rest
  | d, .release :: rest => lockedOk (d - 1) rest
  | d, _ :: rest => decide (0 < d) && lockedOk d rest

/-- Reference formatter written from the spec's table, amended at the one
point the code diverges: only the generic `shift` member maps to
`"[SHIFT]"`; the side-specific `shift_r` is not in the table and falls to
the default bracketed-uppercase rule. -/
def formatKeySpec : KeyEvent → Option String
  | .keyCode c => c.map (fun ch => String.singleton ch)
  | .key .space => some " "
  | .key .enter => some "\n"
  | .key .tab => some "\t"
  | .key .backspace => some "[BACKSPACE]"
  | .key .shift => some "[SHIFT]"
  | .key .ctrl_l => some "[CTRL]"
  | .key .ctrl_r => some "[CTRL]"
  | .key .alt_l => some "[ALT]"
  | .key .alt_r => some "[ALT]"
  | .key .caps_lock => some "[CAPS]"
  | .key .esc => some "[ESC]"
  | .key .up => some "[UP]"
  | .key .down => some "[DOWN]"
  | .key .left => some "[LEFT]"
  | .key .right => some "[RIGHT]"
  | .key .delete => some "[DELETE]"
  | .key k => some ("[" ++ upperAscii k.pyname ++ "]")

/-- A concrete run used as a witness: presses `h`, `i`, Enter with
non-decreasing timestamps. -/
def demoEvents : List (String × KeyEvent) :=
  [("2024-05-01 10:00:00", KeyEvent.keyCode (some 'h')),
   ("2024-05-01 10:00:01", KeyEvent.keyCode (some 'i')),
   ("2024-05-01 10:00:01", KeyEvent.key KeyName.enter)]

/-! ## Helper lemmas -/

theorem on_press_file_data (ts : String) (k : KeyEvent) (ok : Bool) (s : KState) :
    (on_press ts k ok s).file ++ (on_press ts k ok s).log_data
      = s.file ++ (s.log_data ++ entryOf ts k) := by
  cases ok <;>
    simp [on_press, flush_to_file, fsAppend, entryOf, String.append_empty]

theorem run_faulty_conserves (evs : List (String × KeyEvent × Bool)) (s : KState) :
    (run_faulty evs s).file ++ (run_faulty evs s).log_data
      = s.file ++ s.log_data ++ strJoin (evs.map fun e => entryOf e.1 e.2.1) := by
  induction evs generalizing s with
  | nil => simp [run_faulty, strJoin, String.append_empty]
  | cons e rest ih =>
    have hc : run_faulty (e :: rest) s
        = run_faulty rest (on_press e.1 e.2.1 e.2.2 s) := rfl
    rw [hc, ih, on_press_file_data]
    simp [strJoin, String.append_assoc]

theorem run_press_state (evs : List (String × KeyEvent)) (s : KState)
    (h : s.log_data = "") :
    (run_press evs s).file = s.file ++ strJoin (evs.map fun e => entryOf e.1 e.2)
    ∧ (run_press evs s).log_data = "" := by
  induction evs generalizing s with
  | nil => exact ⟨(String.append_empty s.file).symm, h⟩
  | cons e rest ih =>
    have hc : run_press (e :: rest) s = run_press rest (on_press e.1 e.2 true s) := rfl
    have hdata : (on_press e.1 e.2 true s).log_data = "" := rfl
    have hfile : (on_press e.1 e.2 true s).file = s.file ++ entryOf e.1 e.2 := by
      simp [on_press, flush_to_file, fsAppend, entryOf, h, String.empty_append]
    obtain ⟨ih1, ih2⟩ := ih (on_press e.1 e.2 true s) hdata
    refine ⟨?_, by rw [hc]; exact ih2⟩
    rw [hc, ih1, hfile, String.append_assoc]
    rfl

theorem stop_conserves (ok : Bool) (ts : String) (s : KState) :
    (stop ok ts s).file ++ (stop ok ts s).log_data = s.file ++ s.log_data := by
  by_cases h : s.log_data = "" <;> cases ok <;>
    simp [stop, flush_to_file, fsAppend, h, String.append_empty]

theorem stop_true_flushes (ts : String) (s : KState) :
    (stop true ts s).file = s.file ++ s.log_data
    ∧ (stop true ts s).log_data = "" := by
  by_cases h : s.log_data = "" <;>
    simp [stop, flush_to_file, fsAppend, h, String.append_empty]

theorem stop_of_empty (ok : Bool) (ts : String) (s : KState) (h : s.log_data = "") :
    (stop ok ts s).file = s.file ∧ (stop ok ts s).log_data = s.log_data := by
  simp [stop, h]

/-! ## Claim theorems -/

/-- Claim C1: for any sequence of N key-press events delivered with
non-decreasing timestamps and all flushes succeeding, every `on_press` call
appends exactly one entry `[<timestamp>] <formatted-key>\n`, and the final
log file is exactly the concatenation of the N entries in arrival order,
with nothing left in the buffer; the entries carry the events' timestamps,
hence are timestamped non-decreasingly. -/
theorem order_preservation (evs : List (String × KeyEvent))
    (hmono : List.Chain' (fun a b : String => a ≤ b) (evs.map Prod.fst)) :
    (run_press evs initState).file = strJoin (evs.map fun e => entryOf e.1 e.2)
    ∧ (run_press evs initState).log_data = ""
    ∧ (evs.map fun e => entryOf e.1 e.2).length = evs.length
    ∧ List.Chain' (fun a b => a.1 ≤ b.1)
        (evs.map fun e => (e.1, entryOf e.1 e.2)) := by
  obtain ⟨h1, h2⟩ := run_press_state evs initState rfl
  refine ⟨h1.trans (String.empty_append _), h2, List.length_map _ _, ?_⟩
  simpa only [List.chain'_map] using hmono

/-- Witness for C1 at the concrete run `demoEvents`. -/
theorem order_preservation_witness :
    List.Chain' (fun a b : String => a ≤ b) (demoEvents.map Prod.fst)
    ∧ ((run_press demoEvents initState).file
          = strJoin (demoEvents.map fun e => entryOf e.1 e.2)
       ∧ (run_press demoEvents initState).log_data = ""
       ∧ (demoEvents.map fun e => entryOf e.1 e.2).length = demoEvents.length
       ∧ List.Chain' (fun a b => a.1 ≤ b.1)
           (demoEvents.map fun e => (e.1, entryOf e.1 e.2))) :=
  ⟨by
    simp only [demoEvents, List.map, List.chain'_cons, List.chain'_singleton, and_true]
    exact ⟨by rw [String.le_iff_toList_le]; decide, le_refl _⟩,
   order_preservation demoEvents (by
    simp only [demoEvents, List.map, List.chain'_cons, List.chain'_singleton, and_true]
    exact ⟨by rw [String.le_iff_toList_le]; decide, le_refl _⟩)⟩

/-- Claim C2 counterexample: the code compares only against the generic
`Key.shift` member, so the right-side shift identifier `shift_r` falls to
the default rule and formats as `"[SHIFT_R]"`, not `"[SHIFT]"`. -/
theorem format_key_shift_r_counterexample :
    format_key (KeyEvent.key KeyName.shift_r) = some "[SHIFT_R]"
    ∧ format_key (KeyEvent.key KeyName.shift_r) ≠ some "[SHIFT]" := by
  constructor <;> decide

/-- Claim C2 as amended: `format_key` agrees everywhere with the reference
table `formatKeySpec`, in which the character path takes precedence, every
tabled identifier returns its exact literal (ctrl and alt of either side map
to `"[CTRL]"`/`"[ALT]"`, but only the generic `shift` member maps to
`"[SHIFT]"`), and every identifier outside the table — including `shift_r`
and `menu` — returns `"[" + uppercase(name) + "]"`. -/
theorem format_key_eq_spec_table : ∀ e : KeyEvent, format_key e = formatKeySpec e := by
  intro e
  cases e with
  | keyCode c => rfl
  | key k => cases k <;> rfl

/-- Claim C3: a failing flush leaves the buffer and the file untouched and
reports one diagnostic line on stderr; the exception is caught inside
`flush_to_file` (its result type is a plain state, so the failure never
propagates), and the retained entries are written by the next key event
whose flush succeeds, together with the new entry. -/
theorem flush_failure_recovery (s : KState) (ts : String) (k : KeyEvent) :
    (flush_to_file false s).log_data = s.log_data
    ∧ (flush_to_file false s).file = s.file
    ∧ (flush_to_file false s).errLines
        = s.errLines ++ ["Error writing to log file: io"]
    ∧ (on_press ts k true (flush_to_file false s)).file
        = s.file ++ (s.log_data ++ entryOf ts k)
    ∧ (on_press ts k true (flush_to_file false s)).log_data = "" :=
  ⟨rfl, rfl, rfl, rfl, rfl⟩

/-- Claim C4 counterexample: `stop` reads the pending buffer (the truthiness
test on `self.log_data`) and invokes `flush_to_file` without acquiring the
lock, so not every buffer access of the session holds the lock. -/
theorem stop_trace_violates_lock : lockedOk 0 stop_trace_nonempty = false := by
  decide

/-- Claim C4 as amended: all buffer reads/writes and the flush invocation in
`on_press` happen while the lock is held, but `stop` reads the buffer and
calls flush with the lock depth at zero. -/
theorem lock_discipline_amended :
    lockedOk 0 on_press_trace = true ∧ lockedOk 0 stop_trace_nonempty = false := by
  constructor <;> decide

/-- Claim C5 counterexample: `start` performs no Idle-state check — invoked
on a session whose `running` flag is already set it does not fail with
`AlreadyRunningError` (no such error exists in the code); it returns
normally. -/
theorem start_twice_no_error :
    start_begin "t" "p" { initState with running := true }
      ≠ Except.error SessionError.alreadyRunning := by
  simp [start_begin]

/-- Claim C5 as amended: calling `start()` on a session that is not Idle
does not raise; it simply re-sets the running flag, prints the banner lines
again, and starts another listener. -/
theorem start_no_state_check (ts p : String) (s : KState) (h : s.running = true) :
    ∃ s', start_begin ts p s = Except.ok s' ∧ s'.running = true :=
  ⟨_, rfl, rfl⟩

/-- Witness for the amended C5 at a concrete running session. -/
theorem start_no_state_check_witness :
    ({ initState with running := true } : KState).running = true
    ∧ ∃ s', start_begin "t" "p" { initState with running := true } = Except.ok s'
        ∧ s'.running = true :=
  ⟨rfl, start_no_state_check "t" "p" { initState with running := true } rfl⟩

/-- Claim C6: after any successful flush the buffer is empty; flushing again
immediately (nothing pending) appends zero bytes, leaving the file
unchanged, and `flush_to_file` is a total function (any I/O error is caught
inside it), so it never raises. -/
theorem flush_then_empty (s : KState) :
    (flush_to_file true s).log_data = ""
    ∧ (flush_to_file true (flush_to_file true s)).file = (flush_to_file true s).file
    ∧ (flush_to_file true { s with log_data := "" }).file = s.file :=
  ⟨rfl, String.append_empty _, String.append_empty _⟩

/-- Claim C7: releasing Escape makes `on_release` return `False`, which ends
the pynput subscription; releasing any other key returns `None`, which lets
the capture loop continue. -/
theorem escape_release_stops :
    on_release (KeyEvent.key KeyName.esc) = some false
    ∧ listenerContinues (on_release (KeyEvent.key KeyName.esc)) = false
    ∧ ∀ e : KeyEvent, e ≠ KeyEvent.key KeyName.esc →
        on_release e = none ∧ listenerContinues (on_release e) = true := by
  refine ⟨rfl, rfl, fun e he => ?_⟩
  simp [on_release, listenerContinues, he]

/-- Witness for C7 at the release of the character key `'a'`. -/
theorem escape_release_stops_witness :
    KeyEvent.keyCode (some 'a') ≠ KeyEvent.key KeyName.esc
    ∧ (on_release (KeyEvent.keyCode (some 'a')) = none
       ∧ listenerContinues (on_release (KeyEvent.keyCode (some 'a'))) = true) :=
  ⟨by decide, escape_release_stops.2.2 (KeyEvent.keyCode (some 'a')) (by decide)⟩

/-- Claim C8: a stop whose flush succeeds appends exactly the pending buffer
once and empties it and prints the stop banner; a second stop finds the
buffer empty, skips the flush, and leaves the file unchanged — and for any
flush outcomes, two consecutive stops conserve `file ++ buffer`, so buffered
content is never appended twice. -/
theorem stop_idempotent (s : KState) (ts1 ts2 : String) :
    (stop true ts1 s).file = s.file ++ s.log_data
    ∧ (stop true ts1 s).log_data = ""
    ∧ (stop true ts2 (stop true ts1 s)).file = (stop true ts1 s).file
    ∧ (stop true ts2 (stop true ts1 s)).log_data = ""
    ∧ (stop true ts1 s).outLines = s.outLines ++ ["[*] Keylogger stopped at " ++ ts1]
    ∧ ∀ ok1 ok2 : Bool,
        (stop ok2 ts2 (stop ok1 ts1 s)).file ++ (stop ok2 ts2 (stop ok1 ts1 s)).log_data
          = s.file ++ s.log_data := by
  obtain ⟨h1, h2⟩ := stop_true_flushes ts1 s
  obtain ⟨hs1, hs2⟩ := stop_of_empty true ts2 (stop true ts1 s) h2
  have hban : (stop true ts1 s).outLines
      = s.outLines ++ ["[*] Keylogger stopped at " ++ ts1] := by
    by_cases h : s.log_data = "" <;> simp [stop, flush_to_file, fsAppend, h]
  exact ⟨h1, h2, hs1, hs2.trans h2, hban,
    fun ok1 ok2 => (stop_conserves ok2 ts2 _).trans (stop_conserves ok1 ts1 s)⟩

/-- Claim C9 counterexample: a `KeyCode` event whose `char` attribute is
Python `None` makes `format_key` return `None` (the `try: return key.char`
succeeds and returns the attribute), not a string. -/
theorem format_key_none_counterexample :
    format_key (KeyEvent.keyCode none) = none
    ∧ ¬ ∃ str : String, format_key (KeyEvent.keyCode none) = some str :=
  ⟨rfl, by simp [format_key]⟩

/-- Claim C9 as amended: `format_key` is total with no failure path and no
side effects, and returns a string for every event except exactly the
character-bearing event whose `char` attribute is undefined, where it
returns Python `None` (which the entry f-string then renders as the text
`"None"`). -/
theorem format_key_total_amended :
    (∀ e : KeyEvent, format_key e = none ↔ e = KeyEvent.keyCode none)
    ∧ pyStr (format_key (KeyEvent.keyCode none)) = "None" := by
  refine ⟨fun e => ?_, rfl⟩
  cases e with
  | keyCode c => cases c <;> simp [format_key]
  | key k => simp [format_key]

/-- Claim C10: for any interleaving of key presses with failing and
succeeding flushes, `file ++ buffer` always equals the concatenation of all
entries in arrival order — so every entry that reaches the file appears in
it exactly once and retries never duplicate entries already written; and
locally, a failed flush appends nothing and leaves the buffer unchanged
while a successful flush appends the whole buffer and clears it. -/
theorem exactly_once_on_retry (evs : List (String × KeyEvent × Bool)) (s : KState) :
    (run_faulty evs initState).file ++ (run_faulty evs initState).log_data
      = strJoin (evs.map fun e => entryOf e.1 e.2.1)
    ∧ ((flush_to_file false s).file = s.file
       ∧ (flush_to_file false s).log_data = s.log_data)
    ∧ ((flush_to_file true s).file = s.file ++ s.log_data
       ∧ (flush_to_file true s).log_data = "") := by
  refine ⟨?_, ⟨rfl, rfl⟩, ⟨rfl, rfl⟩⟩
  have h := run_faulty_conserves evs initState
  simpa only [initState, String.empty_append] using h

end Keylogger
